import Mathlib

/-!
Verification of the USB toy-car controller (`usbcar.py`) against its
natural-language specification.

The development shallow-embeds the program:

* `move`, `battery_status` — the `USBCar` device controller, with the
  transport's behaviour (bytes written, bytes read, raised USB errors)
  passed in explicitly;
* `update_battery` — the battery estimator `UI.update_battery`;
* `generate_arrows` — the arrow geometry `UI.generate_arrows` over ℝ
  (the Python float arithmetic is idealised to real arithmetic; every
  truncation below lands far from an integer boundary, so the idealisation
  agrees with the float computation);
* `arrowsZ` / `backplateAt` / `get_direction_at` — the command backplate
  built by `UI.setup_backplate` and read by `UI.get_direction_at`, with
  `pygame.gfxdraw.filled_trigon` modelled as painting every pixel lying in
  the closed triangle spanned by the `int`-truncated vertices, and
  `Surface.get_at` modelled as raising (an `Except.error`) outside the
  canvas;
* `handleEvent` — the per-event dispatch of `UI.main_loop` together with
  `UI.move_car` / `UI.stop_car`, returning the updated state and the list
  of command bytes handed to `move`.
-/

/-! ## Direction constants (`USBCar.FORWARD` … `USBCar.STOP`) -/

def FORWARD : ℕ := 1

def RIGHT : ℕ := 2

def REVERSE_RIGHT : ℕ := 4

def REVERSE : ℕ := 8

def REVERSE_LEFT : ℕ := 16

def LEFT : ℕ := 32

def STOP : ℕ := 0

/-- The seven legal command bytes, as listed by the spec's invariant. -/
def directions : List ℕ := [STOP, FORWARD, RIGHT, REVERSE_RIGHT, REVERSE, REVERSE_LEFT, LEFT]

/-! ## `USBCar.move` -/

/-- `USBCar.move`: issues one control transfer with payload `[direction]`
and returns `ret == 1`, where `ret` is the byte count reported by the
transport (`self._dev.ctrl_transfer(0x21, 0x09, 0x0200, 0, [direction])`).
The transport's reported count is passed in as `ret`. -/
def move (direction : ℕ) (ret : ℕ) : Bool :=
  let _payload := [direction]
  decide (ret = 1)

/-! ## `USBCar.battery_status` -/

/-- A raised `usb.core.USBError`, tagged with whether it was a timeout. -/
structure USBErr where
  timeout : Bool
deriving DecidableEq, Repr

/-- Outcome of `self._dev.read(0x81, 1, timeout=250)`: either the returned
byte array, or a raised `usb.core.USBError`. -/
inductive ReadResult where
  | bytes (data : List ℕ)
  | raises (e : USBErr)
deriving DecidableEq, Repr

/-- `USBCar.battery_status`: decodes a read of one byte; the `except
usb.core.USBError` clause catches every `USBError` (the code comments
"Assume timeout is the only reason") and returns `'out of the garage'`.
The `Except` result type records that an uncaught exception would
propagate to the caller; this body never produces `Except.error`. -/
def battery_status (r : ReadResult) : Except USBErr String :=
  match r with
  | .bytes ret =>
      match ret with
      | [] => Except.ok ("unknown")
      | b :: _ =>
          if b = 0x05 then Except.ok ("charging")
          else if b = 0x85 then Except.ok ("charged")
          else Except.ok ("unknown")
  | .raises _ => Except.ok ("out of the garage")

/-! ## `UI.update_battery` (the battery estimator transition) -/

/-- `UI.update_battery`, as a pure transition: given the raw status string
returned by `battery_status` and the previous `self._battery`
(`none` = Python `None`), produce the new `self._battery`. -/
def update_battery (status : String) (battery : Option ℕ) : Option ℕ :=
  if status = ("charging") then
    match battery with
    | none => some 0
    | some b => some (b + 10)
  else if status = ("charged") then some 100
  else none

/-! ## `UI.generate_arrows` — arrow geometry over ℝ

`UI.WINDOW_SIZE = (240, 180)`, so in `generate_arrows` the source computes
`x, y = 120, 90` and `rx, ry = 120*k, 90*k`.  Each labelled block of the
source (`# FORWARD`, `# RIGHT`, …) becomes one definition; a triangle is
the tuple of its three vertices `(x1,y1), (x2,y2), (x3,y3)` in source
order. -/

/-- A triangle: three vertices in ℝ². -/
abbrev Tri : Type := (ℝ × ℝ) × (ℝ × ℝ) × (ℝ × ℝ)

/-- `# FORWARD` block of `generate_arrows`. -/
def arrowForward (k w : ℝ) : Tri :=
  ((120, 90 - 90 * k), (120 - w, 90 - 90 * k + w), (120 + w, 90 - 90 * k + w))

/-- `# RIGHT` block of `generate_arrows`. -/
noncomputable def arrowRight (k w : ℝ) : Tri :=
  ((120 + 120 * k / Real.sqrt 2, 90 - 90 * k / Real.sqrt 2),
   (120 + 120 * k / Real.sqrt 2 - w * Real.sqrt 2, 90 - 90 * k / Real.sqrt 2),
   (120 + 120 * k / Real.sqrt 2, 90 - 90 * k / Real.sqrt 2 + w * Real.sqrt 2))

/-- `# REVERSE_RIGHT` block of `generate_arrows`. -/
noncomputable def arrowReverseRight (k w : ℝ) : Tri :=
  ((120 + 120 * k / Real.sqrt 2, 90 + 90 * k / Real.sqrt 2),
   (120 + 120 * k / Real.sqrt 2, 90 + 90 * k / Real.sqrt 2 - w * Real.sqrt 2),
   (120 + 120 * k / Real.sqrt 2 - w * Real.sqrt 2, 90 + 90 * k / Real.sqrt 2))

/-- `# REVERSE` block of `generate_arrows`. -/
def arrowReverse (k w : ℝ) : Tri :=
  ((120, 90 + 90 * k), (120 - w, 90 + 90 * k - w), (120 + w, 90 + 90 * k - w))

/-- `# REVERSE_LEFT` block of `generate_arrows`. -/
noncomputable def arrowReverseLeft (k w : ℝ) : Tri :=
  ((120 - 120 * k / Real.sqrt 2, 90 + 90 * k / Real.sqrt 2),
   (120 - 120 * k / Real.sqrt 2 + w * Real.sqrt 2, 90 + 90 * k / Real.sqrt 2),
   (120 - 120 * k / Real.sqrt 2, 90 + 90 * k / Real.sqrt 2 - w * Real.sqrt 2))

/-- `# LEFT` block of `generate_arrows`. -/
noncomputable def arrowLeft (k w : ℝ) : Tri :=
  ((120 - 120 * k / Real.sqrt 2, 90 - 90 * k / Real.sqrt 2),
   (120 - 120 * k / Real.sqrt 2, 90 - 90 * k / Real.sqrt 2 + w * Real.sqrt 2),
   (120 - 120 * k / Real.sqrt 2 + w * Real.sqrt 2, 90 - 90 * k / Real.sqrt 2))

/-- `UI.generate_arrows(k, w)`: the list `self._arrows`, in append order. -/
noncomputable def generate_arrows (k w : ℝ) : List Tri :=
  [arrowForward k w, arrowRight k w, arrowReverseRight k w,
   arrowReverse k w, arrowReverseLeft k w, arrowLeft k w]

/-- Membership of a point in the closed triangle spanned by `t`'s
vertices, via barycentric coordinates. -/
def inTriangle (t : Tri) (p : ℝ × ℝ) : Prop :=
  ∃ a b c : ℝ, 0 ≤ a ∧ 0 ≤ b ∧ 0 ≤ c ∧ a + b + c = 1 ∧
    p.1 = a * t.1.1 + b * t.2.1.1 + c * t.2.2.1 ∧
    p.2 = a * t.1.2 + b * t.2.1.2 + c * t.2.2.2

/-! ## `UI.setup_backplate` / `UI.get_direction_at` — the command surface

`setup_backplate` truncates every vertex with Python `int()` (truncation
toward zero) before handing it to `pygame.gfxdraw.filled_trigon`, which we
model as painting every pixel lying in the closed triangle spanned by the
truncated vertices. -/

/-- A triangle with integer (pixel) vertices. -/
abbrev TriZ : Type := (ℤ × ℤ) × (ℤ × ℤ) × (ℤ × ℤ)

/-- Python `int()` on a real: truncation toward zero. -/
noncomputable def pyint (r : ℝ) : ℤ :=
  if 0 ≤ r then ⌊r⌋ else ⌈r⌉

/-- Vertex-wise `int()` truncation, as applied by `setup_backplate` and
`draw_arrows` before rasterising. -/
noncomputable def truncTri (t : Tri) : TriZ :=
  ((pyint t.1.1, pyint t.1.2), (pyint t.2.1.1, pyint t.2.1.2),
   (pyint t.2.2.1, pyint t.2.2.2))

/-- 2D cross product `(p − o) × (q − o)`. -/
def crossZ (o p q : ℤ × ℤ) : ℤ :=
  (p.1 - o.1) * (q.2 - o.2) - (p.2 - o.2) * (q.1 - o.1)

/-- Pixel membership in the closed triangle `t` (all three edge cross
products on one side). -/
def inTriZ (t : TriZ) (p : ℤ × ℤ) : Prop :=
  (0 ≤ crossZ t.1 t.2.1 p ∧ 0 ≤ crossZ t.2.1 t.2.2 p ∧ 0 ≤ crossZ t.2.2 t.1 p) ∨
  (crossZ t.1 t.2.1 p ≤ 0 ∧ crossZ t.2.1 t.2.2 p ≤ 0 ∧ crossZ t.2.2 t.1 p ≤ 0)

instance (t : TriZ) (p : ℤ × ℤ) : Decidable (inTriZ t p) := by
  unfold inTriZ
  infer_instance

/-- The rasterised `# FORWARD` arrow for the program's `K = 0.8`, `W = 10`
(each vertex is `int()` of the real vertex; see `arrowsZ_spec`). -/
def fZ : TriZ := ((120, 18), (110, 28), (130, 28))

/-- The rasterised `# RIGHT` arrow for `K = 0.8`, `W = 10`. -/
def rZ : TriZ := ((187, 39), (173, 39), (187, 53))

/-- The rasterised `# REVERSE_RIGHT` arrow for `K = 0.8`, `W = 10`. -/
def rrZ : TriZ := ((187, 140), (187, 126), (173, 140))

/-- The rasterised `# REVERSE` arrow for `K = 0.8`, `W = 10`. -/
def revZ : TriZ := ((120, 162), (110, 152), (130, 152))

/-- The rasterised `# REVERSE_LEFT` arrow for `K = 0.8`, `W = 10`. -/
def rlZ : TriZ := ((52, 140), (66, 140), (52, 126))

/-- The rasterised `# LEFT` arrow for `K = 0.8`, `W = 10`. -/
def lZ : TriZ := ((52, 39), (52, 53), (66, 39))

/-- The rasterised arrows, in the order `self._arrows` is generated. -/
def arrowsZ : List TriZ := [fZ, rZ, rrZ, revZ, rlZ, lZ]

/-- The `commands` argument `UI.__init__` passes to `setup_backplate`. -/
def commands : List ℕ :=
  [FORWARD, RIGHT, REVERSE_RIGHT, REVERSE, REVERSE_LEFT, LEFT]

/-- The backplate pixel value at `p`: `setup_backplate` fills the surface
with `Color(STOP, 0, 0)` and then paints each `(arrow, command)` pair of
`zip(self._arrows, commands)` in order, later triangles over earlier
ones; `get_at(...).r` recovers the command byte. -/
def backplateAt (p : ℤ × ℤ) : ℕ :=
  (arrowsZ.zip commands).foldl (fun acc tc => if inTriZ tc.1 p then tc.2 else acc) STOP

/-- Whether a pixel position lies inside the 240×180 window surface. -/
def inCanvas (p : ℤ × ℤ) : Bool :=
  decide (0 ≤ p.1) && decide (p.1 < 240) && decide (0 ≤ p.2) && decide (p.2 < 180)

/-- `UI.get_direction_at(position)`: `self._backplate.get_at(position).r`.
`Surface.get_at` raises `IndexError` when the position is outside the
surface, modelled as `Except.error ()`. -/
def get_direction_at (p : ℤ × ℤ) : Except Unit ℕ :=
  if inCanvas p then Except.ok (backplateAt p) else Except.error ()

/-! ## `UI.main_loop` event dispatch, `UI.move_car`, `UI.stop_car` -/

/-- The mutable UI state touched by the event handlers: `self._stopped`
and `self._battery`. -/
structure LoopState where
  stopped : Bool
  battery : Option ℕ
deriving DecidableEq, Repr

/-- One pygame event as dispatched by `main_loop`: `QUIT`,
`MOUSEBUTTONDOWN` (with `event.pos`, `event.button`), `MOUSEBUTTONUP`
(with `event.button`, `event.pos`), `MOUSEMOTION` (with `event.pos` and
`event.buttons[0]`), or the `UPDATEBATTERY` timer event. -/
inductive PyEvent where
  | quit
  | mouseDown (pos : ℤ × ℤ) (button : ℕ)
  | mouseUp (button : ℕ) (pos : ℤ × ℤ)
  | mouseMotion (pos : ℤ × ℤ) (button0 : Bool)
  | updateBatteryEv
deriving DecidableEq, Repr

/-- One iteration of the event dispatch in `UI.main_loop`, for a single
event.  `mv ret` is the byte count the transport reports for a control
transfer (so `USBCar.move d` returns `mv d = true` iff that count is 1 —
here `mv : ℕ → Bool` directly gives `move`'s boolean result for command
byte `d`), and `read` is the transport's answer to the battery read.
Returns the new state and the list of command bytes handed to
`USBCar.move`; a raised exception (from `get_direction_at` out of canvas,
or a propagated transport error) is `Except.error`.

* `MOUSEBUTTONDOWN` → `move_car(get_direction_at(event.pos))`, and
  `move_car` sets `self._stopped = not self._car.move(direction)`;
* `MOUSEBUTTONUP` with `event.button == 1` → `move_car(STOP)`;
* `MOUSEMOTION` with `event.buttons[0]`, direction `STOP`, and not
  already stopped → `stop_car()`, which sets
  `self._stopped = self._car.move(STOP)` (no negation);
* `UPDATEBATTERY` → `update_battery()`;
* `QUIT` → release and exit (no command sent). -/
def handleEvent (mv : ℕ → Bool) (read : ReadResult) (st : LoopState) :
    PyEvent → Except Unit (LoopState × List ℕ)
  | .quit => Except.ok (st, [])
  | .mouseDown pos _button =>
      match get_direction_at pos with
      | .error e => Except.error e
      | .ok direction => Except.ok ({ st with stopped := !(mv direction) }, [direction])
  | .mouseUp button _pos =>
      if button = 1 then Except.ok ({ st with stopped := !(mv STOP) }, [STOP])
      else Except.ok (st, [])
  | .mouseMotion pos button0 =>
      if button0 then
        match get_direction_at pos with
        | .error e => Except.error e
        | .ok direction =>
            if direction = STOP ∧ st.stopped = false then
              Except.ok ({ st with stopped := mv STOP }, [STOP])
            else Except.ok (st, [])
      else Except.ok (st, [])
  | .updateBatteryEv =>
      match battery_status read with
      | .error _ => Except.error ()
      | .ok status => Except.ok ({ st with battery := update_battery status st.battery }, [])

/-! ## Claims about the device protocol and the battery estimator -/

/-- C5: `move(direction)` returns `true` iff the transport reported
writing exactly one byte; any other reported count (0 or more than 1)
yields `false`, with no retry and nothing raised. -/
theorem c5_move (direction ret : ℕ) : move direction ret = true ↔ ret = 1 := by
  simp [move]

/-- C5 witness: at `direction = FORWARD`, a reported count of 1 gives
`true` and a reported count of 0 gives `false`. -/
theorem c5_move_witness : move 1 1 = true ∧ ¬ move 1 0 = true :=
  ⟨(c5_move 1 1).mpr rfl, fun h => absurd ((c5_move 1 0).mp h) (by decide)⟩

/-- C6: a successful read decodes byte `0x05` to `'charging'`, byte
`0x85` to `'charged'`, any other byte or an empty read to `'unknown'`;
a timeout error yields `'out of the garage'` (the Offline value). -/
theorem c6_battery_decode :
    battery_status (.bytes [0x05]) = Except.ok ("charging") ∧
    battery_status (.bytes [0x85]) = Except.ok ("charged") ∧
    (∀ b : ℕ, b ≠ 0x05 → b ≠ 0x85 → battery_status (.bytes [b]) = Except.ok ("unknown")) ∧
    battery_status (.bytes []) = Except.ok ("unknown") ∧
    (∀ e : USBErr, e.timeout = true → battery_status (.raises e) = Except.ok ("out of the garage")) := by
  refine ⟨rfl, rfl, ?_, rfl, fun e _ => rfl⟩
  intro b h1 h2
  simp [battery_status, h1, h2]

/-- C6 witness: byte `0x00` is neither `0x05` nor `0x85` and decodes to
`'unknown'`. -/
theorem c6_battery_decode_witness :
    (0 : ℕ) ≠ 0x05 ∧ (0 : ℕ) ≠ 0x85 ∧ battery_status (.bytes [0]) = Except.ok ("unknown") :=
  ⟨by decide, by decide, c6_battery_decode.2.2.1 0 (by decide) (by decide)⟩

/-- C2 counterexample: a NON-timeout transport error is also recovered
locally — `battery_status` returns the Offline value `'out of the
garage'` instead of propagating it, because the `except` clause catches
every `usb.core.USBError`.  The claim says a non-timeout transport error
is propagated to the caller. -/
theorem c2_counterexample :
    battery_status (.raises ⟨false⟩) = Except.ok ("out of the garage") ∧
    (battery_status (.raises ⟨false⟩)).isOk = true :=
  ⟨rfl, rfl⟩

/-- C2 amended: `battery_status` recovers EVERY transport error locally,
timeout or not, mapping each to the Offline value `'out of the garage'`;
no transport error is propagated to the caller. -/
theorem c2_amended (e : USBErr) :
    battery_status (.raises e) = Except.ok ("out of the garage") ∧
    (battery_status (.raises e)).isOk = true :=
  ⟨rfl, rfl⟩

/-- C2 amended witness: instance at a timeout error. -/
theorem c2_amended_witness :
    battery_status (.raises ⟨true⟩) = Except.ok ("out of the garage") ∧
    (battery_status (.raises ⟨true⟩)).isOk = true :=
  c2_amended ⟨true⟩

/-- C7: a `'charging'` sample from previous estimate `None` yields `0`;
a `'charged'` sample yields `100` for every previous estimate; an
`'unknown'` or Offline (`'out of the garage'`) sample yields `None`
regardless of the previous estimate. -/
theorem c7_update (prev : Option ℕ) :
    update_battery ("charging") none = some 0 ∧
    update_battery ("charged") prev = some 100 ∧
    update_battery ("unknown") prev = none ∧
    update_battery ("out of the garage") prev = none := by
  refine ⟨rfl, ?_, ?_, ?_⟩ <;> simp [update_battery]

/-- C7 witness: instance at previous estimate `some 42`. -/
theorem c7_update_witness :
    update_battery ("charging") none = some 0 ∧
    update_battery ("charged") (some 42) = some 100 ∧
    update_battery ("unknown") (some 42) = none ∧
    update_battery ("out of the garage") (some 42) = none :=
  c7_update (some 42)

/-- C1 counterexample: from a numeric previous estimate of `100`, a
`'charging'` sample yields `110`, not `min(100 + 10, 100) = 100`; after
11 consecutive `'charging'` samples from `None` the estimate is `100`,
but the 12th yields `110` instead of staying at `100`. -/
theorem c1_counterexample :
    update_battery ("charging") (some 100) = some 110 ∧
    (fun b => update_battery ("charging") b)^[11] none = some 100 ∧
    (fun b => update_battery ("charging") b)^[12] none = some 110 := by
  refine ⟨rfl, by decide, by decide⟩

/-- C1 amended: when the raw sample is `'charging'` and the previous
estimate is numeric, the new estimate is `prev + 10` with NO ceiling
(the code has no `min(..., 100)`); 11 consecutive `'charging'` samples
from `None` reach exactly `100`, and each further `'charging'` sample
keeps adding 10 (the 12th gives `110`, the (12+n)-th gives `110 + 10n`)
instead of saturating. -/
theorem c1_amended :
    (∀ b : ℕ, update_battery ("charging") (some b) = some (b + 10)) ∧
    (fun b => update_battery ("charging") b)^[11] none = some 100 ∧
    (∀ n : ℕ, (fun b => update_battery ("charging") b)^[n + 12] none = some (110 + 10 * n)) := by
  refine ⟨fun b => rfl, by decide, ?_⟩
  intro n
  induction n with
  | zero => decide
  | succ m ih =>
      have hstep : m + 1 + 12 = (m + 12) + 1 := by omega
      rw [hstep, Function.iterate_succ_apply', ih]
      show some (110 + 10 * m + 10) = some (110 + 10 * (m + 1))
      congr 1

/-- C1 amended witness: instance of the unclamped increment at `prev = 95`. -/
theorem c1_amended_witness :
    update_battery ("charging") (some 95) = some (95 + 10) :=
  c1_amended.1 95

/-! ## The command surface: separation of the rasterised arrows -/

/-- Unfolding of the backplate paint loop: later triangles of
`zip(self._arrows, commands)` overwrite earlier ones over a `STOP`
background. -/
theorem backplateAt_eq (p : ℤ × ℤ) :
    backplateAt p =
      (if inTriZ lZ p then LEFT else
       if inTriZ rlZ p then REVERSE_LEFT else
       if inTriZ revZ p then REVERSE else
       if inTriZ rrZ p then REVERSE_RIGHT else
       if inTriZ rZ p then RIGHT else
       if inTriZ fZ p then FORWARD else STOP) := rfl

/-- The backplate pixel value is always one of the seven direction
bytes. -/
theorem backplateAt_mem (p : ℤ × ℤ) : backplateAt p ∈ directions := by
  rw [backplateAt_eq]
  split_ifs <;> simp [directions]

/-- A pixel in the rasterised FORWARD arrow is in no other rasterised
arrow (the six triangles occupy pairwise disjoint pixel regions). -/
theorem sep_f (p : ℤ × ℤ) (h : inTriZ fZ p) :
    ¬ inTriZ rZ p ∧ ¬ inTriZ rrZ p ∧ ¬ inTriZ revZ p ∧ ¬ inTriZ rlZ p ∧ ¬ inTriZ lZ p := by
  simp only [inTriZ, crossZ, fZ, rZ, rrZ, revZ, rlZ, lZ] at h ⊢
  omega

/-- A pixel in the rasterised RIGHT arrow is in no later-painted arrow. -/
theorem sep_r (p : ℤ × ℤ) (h : inTriZ rZ p) :
    ¬ inTriZ rrZ p ∧ ¬ inTriZ revZ p ∧ ¬ inTriZ rlZ p ∧ ¬ inTriZ lZ p := by
  simp only [inTriZ, crossZ, fZ, rZ, rrZ, revZ, rlZ, lZ] at h ⊢
  omega

/-- A pixel in the rasterised REVERSE_RIGHT arrow is in no later-painted
arrow. -/
theorem sep_rr (p : ℤ × ℤ) (h : inTriZ rrZ p) :
    ¬ inTriZ revZ p ∧ ¬ inTriZ rlZ p ∧ ¬ inTriZ lZ p := by
  simp only [inTriZ, crossZ, fZ, rZ, rrZ, revZ, rlZ, lZ] at h ⊢
  omega

/-- A pixel in the rasterised REVERSE arrow is in no later-painted
arrow. -/
theorem sep_rev (p : ℤ × ℤ) (h : inTriZ revZ p) :
    ¬ inTriZ rlZ p ∧ ¬ inTriZ lZ p := by
  simp only [inTriZ, crossZ, fZ, rZ, rrZ, revZ, rlZ, lZ] at h ⊢
  omega

/-- A pixel in the rasterised REVERSE_LEFT arrow is not in the rasterised
LEFT arrow. -/
theorem sep_rl (p : ℤ × ℤ) (h : inTriZ rlZ p) : ¬ inTriZ lZ p := by
  simp only [inTriZ, crossZ, rlZ, lZ] at h ⊢
  omega

/-- C3: with the command buffer built by painting each rasterised arrow
with its direction byte — pairs `zip(self._arrows, commands)` in the
order FORWARD, RIGHT, REVERSE_RIGHT, REVERSE, REVERSE_LEFT, LEFT — over
a STOP background, looking up any canvas pixel lying in an arrow's
triangle returns that arrow's direction, and looking up a canvas pixel
lying in none of the six triangles returns STOP. -/
theorem c3_lookup (p : ℤ × ℤ) (hc : inCanvas p = true) :
    (∀ tc ∈ arrowsZ.zip commands, inTriZ tc.1 p → get_direction_at p = Except.ok tc.2) ∧
    ((∀ t ∈ arrowsZ, ¬ inTriZ t p) → get_direction_at p = Except.ok STOP) := by
  have hga : get_direction_at p = Except.ok (backplateAt p) := by
    simp [get_direction_at, hc]
  constructor
  · intro tc htc hin
    rw [hga, backplateAt_eq]
    simp only [arrowsZ, commands, List.zip_cons_cons, List.zip_nil_left,
      List.mem_cons, List.not_mem_nil, or_false] at htc
    rcases htc with rfl | rfl | rfl | rfl | rfl | rfl
    · obtain ⟨s1, s2, s3, s4, s5⟩ := sep_f p hin
      rw [if_neg s5, if_neg s4, if_neg s3, if_neg s2, if_neg s1, if_pos hin]
    · obtain ⟨s2, s3, s4, s5⟩ := sep_r p hin
      rw [if_neg s5, if_neg s4, if_neg s3, if_neg s2, if_pos hin]
    · obtain ⟨s3, s4, s5⟩ := sep_rr p hin
      rw [if_neg s5, if_neg s4, if_neg s3, if_pos hin]
    · obtain ⟨s4, s5⟩ := sep_rev p hin
      rw [if_neg s5, if_neg s4, if_pos hin]
    · have s5 := sep_rl p hin
      rw [if_neg s5, if_pos hin]
    · rw [if_pos hin]
  · intro hall
    rw [hga, backplateAt_eq]
    rw [if_neg (hall lZ (by simp [arrowsZ])), if_neg (hall rlZ (by simp [arrowsZ])),
      if_neg (hall revZ (by simp [arrowsZ])), if_neg (hall rrZ (by simp [arrowsZ])),
      if_neg (hall rZ (by simp [arrowsZ])), if_neg (hall fZ (by simp [arrowsZ]))]

/-- C3 witness: pixel `(120, 25)` lies in the rasterised FORWARD arrow
and the lookup returns `FORWARD = 1`. -/
theorem c3_lookup_witness : get_direction_at (120, 25) = Except.ok FORWARD :=
  (c3_lookup (120, 25) (by decide)).1 (fZ, FORWARD) (by decide) (by decide)

/-- C4 counterexample: position `(240, 0)` lies outside the 240×180
canvas and the buffer read raises (`Surface.get_at` raises `IndexError`)
instead of being clamped to the canvas and returning a Direction. -/
theorem c4_counterexample : get_direction_at (240, 0) = Except.error () := rfl

/-- C4 amended: the lookup is total over canvas positions — for every
position inside the canvas it returns the buffer byte, which is always
one of the seven direction values (positions outside every triangle
resolving to STOP) — but a position outside the canvas makes the buffer
read raise `IndexError` rather than being clamped. -/
theorem c4_amended (p : ℤ × ℤ) :
    (inCanvas p = true →
      get_direction_at p = Except.ok (backplateAt p) ∧ backplateAt p ∈ directions) ∧
    (inCanvas p = false → get_direction_at p = Except.error ()) := by
  constructor
  · intro hc
    exact ⟨by simp [get_direction_at, hc], backplateAt_mem p⟩
  · intro hc
    simp [get_direction_at, hc]

/-- C4 amended witness: instance at the in-canvas position `(10, 10)`. -/
theorem c4_amended_witness :
    inCanvas (10, 10) = true ∧
    (get_direction_at (10, 10) = Except.ok (backplateAt (10, 10)) ∧
      backplateAt (10, 10) ∈ directions) :=
  ⟨by decide, (c4_amended (10, 10)).1 (by decide)⟩

/-! ## Arithmetic facts about √2 and the `int()`-truncated arrows -/

theorem sqrt2_sq : Real.sqrt 2 * Real.sqrt 2 = 2 :=
  Real.mul_self_sqrt (by norm_num)

theorem sqrt2_pos : (0 : ℝ) < Real.sqrt 2 :=
  Real.sqrt_pos.mpr (by norm_num)

theorem sqrt2_gt : (1.414 : ℝ) < Real.sqrt 2 := by
  nlinarith [sqrt2_sq, sqrt2_pos]

theorem sqrt2_lt : Real.sqrt 2 < 1.4143 := by
  nlinarith [sqrt2_sq, sqrt2_pos]

theorem div_sqrt2 (a : ℝ) : a / Real.sqrt 2 = a * Real.sqrt 2 / 2 := by
  have h : Real.sqrt 2 ≠ 0 := ne_of_gt sqrt2_pos
  field_simp
  linear_combination (-a) * sqrt2_sq

theorem pyint_eq_of (r : ℝ) (z : ℤ) (h0 : 0 ≤ r) (hl : (z : ℝ) ≤ r) (hu : r < z + 1) :
    pyint r = z := by
  rw [pyint, if_pos h0]
  exact Int.floor_eq_iff.mpr ⟨hl, by exact_mod_cast hu⟩

/-- The `int()`-truncated FORWARD arrow at `K = 0.8`, `W = 10` is `fZ`. -/
theorem truncF : truncTri (arrowForward 0.8 10) = fZ := by
  simp only [arrowForward, truncTri, fZ, Prod.mk.injEq]
  refine ⟨⟨?_, ?_⟩, ⟨?_, ?_⟩, ?_, ?_⟩ <;>
    (apply pyint_eq_of) <;> push_cast <;> norm_num

/-- The `int()`-truncated RIGHT arrow at `K = 0.8`, `W = 10` is `rZ`. -/
theorem truncR : truncTri (arrowRight 0.8 10) = rZ := by
  have h1 := sqrt2_gt
  have h2 := sqrt2_lt
  simp only [arrowRight, truncTri, rZ, Prod.mk.injEq, div_sqrt2]
  refine ⟨⟨?_, ?_⟩, ⟨?_, ?_⟩, ?_, ?_⟩ <;>
    (apply pyint_eq_of) <;> push_cast <;> linarith

/-- The `int()`-truncated REVERSE_RIGHT arrow at `K = 0.8`, `W = 10` is
`rrZ`. -/
theorem truncRR : truncTri (arrowReverseRight 0.8 10) = rrZ := by
  have h1 := sqrt2_gt
  have h2 := sqrt2_lt
  simp only [arrowReverseRight, truncTri, rrZ, Prod.mk.injEq, div_sqrt2]
  refine ⟨⟨?_, ?_⟩, ⟨?_, ?_⟩, ?_, ?_⟩ <;>
    (apply pyint_eq_of) <;> push_cast <;> linarith

/-- The `int()`-truncated REVERSE arrow at `K = 0.8`, `W = 10` is `revZ`. -/
theorem truncREV : truncTri (arrowReverse 0.8 10) = revZ := by
  simp only [arrowReverse, truncTri, revZ, Prod.mk.injEq]
  refine ⟨⟨?_, ?_⟩, ⟨?_, ?_⟩, ?_, ?_⟩ <;>
    (apply pyint_eq_of) <;> push_cast <;> norm_num

/-- The `int()`-truncated REVERSE_LEFT arrow at `K = 0.8`, `W = 10` is
`rlZ`. -/
theorem truncRL : truncTri (arrowReverseLeft 0.8 10) = rlZ := by
  have h1 := sqrt2_gt
  have h2 := sqrt2_lt
  simp only [arrowReverseLeft, truncTri, rlZ, Prod.mk.injEq, div_sqrt2]
  refine ⟨⟨?_, ?_⟩, ⟨?_, ?_⟩, ?_, ?_⟩ <;>
    (apply pyint_eq_of) <;> push_cast <;> linarith

/-- The `int()`-truncated LEFT arrow at `K = 0.8`, `W = 10` is `lZ`. -/
theorem truncL : truncTri (arrowLeft 0.8 10) = lZ := by
  have h1 := sqrt2_gt
  have h2 := sqrt2_lt
  simp only [arrowLeft, truncTri, lZ, Prod.mk.injEq, div_sqrt2]
  refine ⟨⟨?_, ?_⟩, ⟨?_, ?_⟩, ?_, ?_⟩ <;>
    (apply pyint_eq_of) <;> push_cast <;> linarith

/-- The explicit integer arrows `arrowsZ` are exactly the `int()`
truncations of the real arrows `generate_arrows(K, W)` for the program's
`K = 0.8`, `W = 10`. -/
theorem arrowsZ_spec : (generate_arrows 0.8 10).map truncTri = arrowsZ := by
  simp only [generate_arrows, List.map_cons, List.map_nil, arrowsZ,
    truncF, truncR, truncRR, truncREV, truncRL, truncL]

/-! ## Geometry: bounding-box bounds and triangle disjointness over ℝ -/

theorem inTriangle_x_le (t : Tri) (p : ℝ × ℝ) (M : ℝ)
    (h1 : t.1.1 ≤ M) (h2 : t.2.1.1 ≤ M) (h3 : t.2.2.1 ≤ M)
    (hp : inTriangle t p) : p.1 ≤ M := by
  obtain ⟨a, b, c, ha, hb, hc, habc, hx, _⟩ := hp
  have hM : a * M + b * M + c * M = M := by
    rw [← add_mul, ← add_mul, habc, one_mul]
  nlinarith [mul_nonneg ha (sub_nonneg.mpr h1), mul_nonneg hb (sub_nonneg.mpr h2),
    mul_nonneg hc (sub_nonneg.mpr h3)]

theorem inTriangle_x_ge (t : Tri) (p : ℝ × ℝ) (M : ℝ)
    (h1 : M ≤ t.1.1) (h2 : M ≤ t.2.1.1) (h3 : M ≤ t.2.2.1)
    (hp : inTriangle t p) : M ≤ p.1 := by
  obtain ⟨a, b, c, ha, hb, hc, habc, hx, _⟩ := hp
  have hM : a * M + b * M + c * M = M := by
    rw [← add_mul, ← add_mul, habc, one_mul]
  nlinarith [mul_nonneg ha (sub_nonneg.mpr h1), mul_nonneg hb (sub_nonneg.mpr h2),
    mul_nonneg hc (sub_nonneg.mpr h3)]

theorem inTriangle_y_le (t : Tri) (p : ℝ × ℝ) (M : ℝ)
    (h1 : t.1.2 ≤ M) (h2 : t.2.1.2 ≤ M) (h3 : t.2.2.2 ≤ M)
    (hp : inTriangle t p) : p.2 ≤ M := by
  obtain ⟨a, b, c, ha, hb, hc, habc, _, hy⟩ := hp
  have hM : a * M + b * M + c * M = M := by
    rw [← add_mul, ← add_mul, habc, one_mul]
  nlinarith [mul_nonneg ha (sub_nonneg.mpr h1), mul_nonneg hb (sub_nonneg.mpr h2),
    mul_nonneg hc (sub_nonneg.mpr h3)]

theorem inTriangle_y_ge (t : Tri) (p : ℝ × ℝ) (M : ℝ)
    (h1 : M ≤ t.1.2) (h2 : M ≤ t.2.1.2) (h3 : M ≤ t.2.2.2)
    (hp : inTriangle t p) : M ≤ p.2 := by
  obtain ⟨a, b, c, ha, hb, hc, habc, _, hy⟩ := hp
  have hM : a * M + b * M + c * M = M := by
    rw [← add_mul, ← add_mul, habc, one_mul]
  nlinarith [mul_nonneg ha (sub_nonneg.mpr h1), mul_nonneg hb (sub_nonneg.mpr h2),
    mul_nonneg hc (sub_nonneg.mpr h3)]

/-- Two triangles separated by a horizontal strip are disjoint. -/
theorem disjoint_tri_y (t1 t2 : Tri) (M N : ℝ) (hMN : M < N)
    (hA : t1.1.2 ≤ M ∧ t1.2.1.2 ≤ M ∧ t1.2.2.2 ≤ M)
    (hB : N ≤ t2.1.2 ∧ N ≤ t2.2.1.2 ∧ N ≤ t2.2.2.2) :
    Disjoint {p : ℝ × ℝ | inTriangle t1 p} {p : ℝ × ℝ | inTriangle t2 p} := by
  rw [Set.disjoint_left]
  intro p hp hq
  have u1 := inTriangle_y_le t1 p M hA.1 hA.2.1 hA.2.2 hp
  have u2 := inTriangle_y_ge t2 p N hB.1 hB.2.1 hB.2.2 hq
  linarith

/-- Two triangles separated by a vertical strip are disjoint. -/
theorem disjoint_tri_x (t1 t2 : Tri) (M N : ℝ) (hMN : M < N)
    (hA : t1.1.1 ≤ M ∧ t1.2.1.1 ≤ M ∧ t1.2.2.1 ≤ M)
    (hB : N ≤ t2.1.1 ∧ N ≤ t2.2.1.1 ∧ N ≤ t2.2.2.1) :
    Disjoint {p : ℝ × ℝ | inTriangle t1 p} {p : ℝ × ℝ | inTriangle t2 p} := by
  rw [Set.disjoint_left]
  intro p hp hq
  have u1 := inTriangle_x_le t1 p M hA.1 hA.2.1 hA.2.2 hp
  have u2 := inTriangle_x_ge t2 p N hB.1 hB.2.1 hB.2.2 hq
  linarith

/-! Coordinate bounds of the six arrows at the program's `K = 0.8`,
`W = 10`. -/

theorem bnd_f_y :
    (arrowForward 0.8 10).1.2 ≤ 28 ∧ (arrowForward 0.8 10).2.1.2 ≤ 28 ∧
      (arrowForward 0.8 10).2.2.2 ≤ 28 := by
  simp only [arrowForward]
  norm_num

theorem bnd_r_y_lb :
    39 ≤ (arrowRight 0.8 10).1.2 ∧ 39 ≤ (arrowRight 0.8 10).2.1.2 ∧
      39 ≤ (arrowRight 0.8 10).2.2.2 := by
  simp only [arrowRight, div_sqrt2]
  refine ⟨?_, ?_, ?_⟩ <;> linarith [sqrt2_gt, sqrt2_lt]

theorem bnd_r_y_ub :
    (arrowRight 0.8 10).1.2 ≤ 54 ∧ (arrowRight 0.8 10).2.1.2 ≤ 54 ∧
      (arrowRight 0.8 10).2.2.2 ≤ 54 := by
  simp only [arrowRight, div_sqrt2]
  refine ⟨?_, ?_, ?_⟩ <;> linarith [sqrt2_gt, sqrt2_lt]

theorem bnd_r_x_lb :
    173 ≤ (arrowRight 0.8 10).1.1 ∧ 173 ≤ (arrowRight 0.8 10).2.1.1 ∧
      173 ≤ (arrowRight 0.8 10).2.2.1 := by
  simp only [arrowRight, div_sqrt2]
  refine ⟨?_, ?_, ?_⟩ <;> linarith [sqrt2_gt, sqrt2_lt]

theorem bnd_rr_y_lb :
    126 ≤ (arrowReverseRight 0.8 10).1.2 ∧ 126 ≤ (arrowReverseRight 0.8 10).2.1.2 ∧
      126 ≤ (arrowReverseRight 0.8 10).2.2.2 := by
  simp only [arrowReverseRight, div_sqrt2]
  refine ⟨?_, ?_, ?_⟩ <;> linarith [sqrt2_gt, sqrt2_lt]

theorem bnd_rr_x_lb :
    173 ≤ (arrowReverseRight 0.8 10).1.1 ∧ 173 ≤ (arrowReverseRight 0.8 10).2.1.1 ∧
      173 ≤ (arrowReverseRight 0.8 10).2.2.1 := by
  simp only [arrowReverseRight, div_sqrt2]
  refine ⟨?_, ?_, ?_⟩ <;> linarith [sqrt2_gt, sqrt2_lt]

theorem bnd_rev_y_lb :
    152 ≤ (arrowReverse 0.8 10).1.2 ∧ 152 ≤ (arrowReverse 0.8 10).2.1.2 ∧
      152 ≤ (arrowReverse 0.8 10).2.2.2 := by
  simp only [arrowReverse]
  norm_num

theorem bnd_rev_x_ub :
    (arrowReverse 0.8 10).1.1 ≤ 130 ∧ (arrowReverse 0.8 10).2.1.1 ≤ 130 ∧
      (arrowReverse 0.8 10).2.2.1 ≤ 130 := by
  simp only [arrowReverse]
  norm_num

theorem bnd_rev_x_lb :
    110 ≤ (arrowReverse 0.8 10).1.1 ∧ 110 ≤ (arrowReverse 0.8 10).2.1.1 ∧
      110 ≤ (arrowReverse 0.8 10).2.2.1 := by
  simp only [arrowReverse]
  norm_num

theorem bnd_rl_x_ub :
    (arrowReverseLeft 0.8 10).1.1 ≤ 67 ∧ (arrowReverseLeft 0.8 10).2.1.1 ≤ 67 ∧
      (arrowReverseLeft 0.8 10).2.2.1 ≤ 67 := by
  simp only [arrowReverseLeft, div_sqrt2]
  refine ⟨?_, ?_, ?_⟩ <;> linarith [sqrt2_gt, sqrt2_lt]

theorem bnd_rl_y_lb :
    126 ≤ (arrowReverseLeft 0.8 10).1.2 ∧ 126 ≤ (arrowReverseLeft 0.8 10).2.1.2 ∧
      126 ≤ (arrowReverseLeft 0.8 10).2.2.2 := by
  simp only [arrowReverseLeft, div_sqrt2]
  refine ⟨?_, ?_, ?_⟩ <;> linarith [sqrt2_gt, sqrt2_lt]

theorem bnd_l_x_ub :
    (arrowLeft 0.8 10).1.1 ≤ 67 ∧ (arrowLeft 0.8 10).2.1.1 ≤ 67 ∧
      (arrowLeft 0.8 10).2.2.1 ≤ 67 := by
  simp only [arrowLeft, div_sqrt2]
  refine ⟨?_, ?_, ?_⟩ <;> linarith [sqrt2_gt, sqrt2_lt]

theorem bnd_l_y_ub :
    (arrowLeft 0.8 10).1.2 ≤ 54 ∧ (arrowLeft 0.8 10).2.1.2 ≤ 54 ∧
      (arrowLeft 0.8 10).2.2.2 ≤ 54 := by
  simp only [arrowLeft, div_sqrt2]
  refine ⟨?_, ?_, ?_⟩ <;> linarith [sqrt2_gt, sqrt2_lt]

theorem bnd_l_y_lb :
    39 ≤ (arrowLeft 0.8 10).1.2 ∧ 39 ≤ (arrowLeft 0.8 10).2.1.2 ∧
      39 ≤ (arrowLeft 0.8 10).2.2.2 := by
  simp only [arrowLeft, div_sqrt2]
  refine ⟨?_, ?_, ?_⟩ <;> linarith [sqrt2_gt, sqrt2_lt]

/-! ## The control loop: command bytes and the stopped flag -/

/-- A successful lookup returns exactly the backplate byte. -/
theorem get_direction_at_ok {p : ℤ × ℤ} {d : ℕ}
    (h : get_direction_at p = Except.ok d) : d = backplateAt p := by
  unfold get_direction_at at h
  split at h
  · exact (Except.ok.inj h).symm
  · exact absurd h (by simp)

/-- `battery_status` never produces an error value (every `USBError` is
caught). -/
theorem battery_status_ne_error (r : ReadResult) (e : USBErr) :
    battery_status r ≠ Except.error e := by
  cases r with
  | bytes l =>
      cases l with
      | nil => simp [battery_status]
      | cons b t => simp only [battery_status]; split_ifs <;> simp
  | raises f => simp [battery_status]

/-- C9: every command byte handed to `move` by any event-handling path
of the control loop is one of the seven values STOP(0), FORWARD(1),
RIGHT(2), REVERSE_RIGHT(4), REVERSE(8), REVERSE_LEFT(16), LEFT(32). -/
theorem c9_commands (mv : ℕ → Bool) (read : ReadResult) (st : LoopState)
    (ev : PyEvent) (st' : LoopState) (cmds : List ℕ)
    (h : handleEvent mv read st ev = Except.ok (st', cmds)) :
    ∀ c ∈ cmds, c ∈ directions := by
  intro c hc
  cases ev with
  | quit =>
      simp only [handleEvent, Except.ok.injEq, Prod.mk.injEq] at h
      rw [← h.2] at hc
      simp at hc
  | mouseDown pos button =>
      rcases hga : get_direction_at pos with e | d
      · simp only [handleEvent, hga] at h
        exact absurd h (by simp)
      · simp only [handleEvent, hga, Except.ok.injEq, Prod.mk.injEq] at h
        rw [← h.2] at hc
        simp only [List.mem_singleton] at hc
        rw [hc, get_direction_at_ok hga]
        exact backplateAt_mem pos
  | mouseUp button pos =>
      by_cases hb : button = 1
      · simp only [handleEvent, hb, if_pos, Except.ok.injEq, Prod.mk.injEq] at h
        rw [← h.2] at hc
        simp only [List.mem_singleton] at hc
        rw [hc]
        simp [directions]
      · simp only [handleEvent, if_neg hb, Except.ok.injEq, Prod.mk.injEq] at h
        rw [← h.2] at hc
        simp at hc
  | mouseMotion pos button0 =>
      cases button0 with
      | false =>
          simp only [handleEvent, Bool.false_eq_true, if_neg, Except.ok.injEq,
            Prod.mk.injEq, reduceIte] at h
          rw [← h.2] at hc
          simp at hc
      | true =>
          rcases hga : get_direction_at pos with e | d
          · simp only [handleEvent, hga, reduceIte] at h
            exact absurd h (by simp)
          · by_cases hcond : d = STOP ∧ st.stopped = false
            · simp only [handleEvent, hga, reduceIte, if_pos hcond,
                Except.ok.injEq, Prod.mk.injEq] at h
              rw [← h.2] at hc
              simp only [List.mem_singleton] at hc
              rw [hc]
              simp [directions]
            · simp only [handleEvent, hga, Except.bind, reduceIte, if_neg hcond,
                Except.ok.injEq, Prod.mk.injEq] at h
              rw [← h.2] at hc
              simp at hc
  | updateBatteryEv =>
      rcases hbs : battery_status read with e | s
      · exact absurd hbs (battery_status_ne_error read e)
      · simp only [handleEvent, hbs, Except.mapError, Except.bind, Except.ok.injEq,
          Prod.mk.injEq] at h
        rw [← h.2] at hc
        simp at hc

/-- C9 witness: a primary-button pointer-up sends exactly `[STOP]`, and
`STOP` is among the seven values. -/
theorem c9_commands_witness :
    handleEvent (fun _ => true) (.bytes []) ⟨true, none⟩ (.mouseUp 1 (0, 0)) =
      Except.ok (⟨false, none⟩, [STOP]) ∧ STOP ∈ [STOP] ∧ STOP ∈ directions :=
  ⟨rfl, by simp, c9_commands (fun _ => true) (.bytes []) ⟨true, none⟩
    (.mouseUp 1 (0, 0)) ⟨false, none⟩ [STOP] rfl STOP (by simp)⟩

/-- C10: on every pointer-down, and on every primary-button pointer-up,
the handler runs `move_car`, which sets `self._stopped` to the NEGATION
of `move`'s boolean result — so a pointer-up whose `move(STOP)` succeeds
leaves `stopped = false`; only the pointer-move auto-stop path runs
`stop_car`, which sets `self._stopped` EQUAL to `move(STOP)`'s result —
so a successful auto-stop leaves `stopped = true`. -/
theorem c10_stopped (mv : ℕ → Bool) (read : ReadResult) (st : LoopState) :
    (∀ pos button st' cmds,
        handleEvent mv read st (.mouseDown pos button) = Except.ok (st', cmds) →
        ∃ d, get_direction_at pos = Except.ok d ∧ st'.stopped = !(mv d)) ∧
    (∀ pos st' cmds,
        handleEvent mv read st (.mouseUp 1 pos) = Except.ok (st', cmds) →
        st'.stopped = !(mv STOP) ∧ (mv STOP = true → st'.stopped = false)) ∧
    (∀ pos st' cmds,
        get_direction_at pos = Except.ok STOP → st.stopped = false →
        handleEvent mv read st (.mouseMotion pos true) = Except.ok (st', cmds) →
        st'.stopped = mv STOP ∧ (mv STOP = true → st'.stopped = true)) := by
  refine ⟨?_, ?_, ?_⟩
  · intro pos button st' cmds h
    rcases hga : get_direction_at pos with e | d
    · simp only [handleEvent, hga] at h
      exact absurd h (by simp)
    · simp only [handleEvent, hga, Except.ok.injEq, Prod.mk.injEq] at h
      exact ⟨d, rfl, by rw [← h.1]⟩
  · intro pos st' cmds h
    simp only [handleEvent, reduceIte, Except.ok.injEq, Prod.mk.injEq] at h
    constructor
    · rw [← h.1]
    · intro hok
      rw [← h.1, hok]
      rfl
  · intro pos st' cmds hga hstop h
    simp only [handleEvent, hga, reduceIte, hstop, and_self, if_pos,
      Except.ok.injEq, Prod.mk.injEq] at h
    constructor
    · rw [← h.1]
    · intro hok
      rw [← h.1, hok]

/-- C10 witness: with a transport whose `move` always succeeds, a
primary-button pointer-up sets `stopped` to `false` (the negation of
`move`'s result). -/
theorem c10_stopped_witness :
    handleEvent (fun _ => true) (.bytes []) ⟨true, none⟩ (.mouseUp 1 (3, 4)) =
      Except.ok (⟨false, none⟩, [STOP]) ∧
    (⟨false, none⟩ : LoopState).stopped = !((fun _ : ℕ => true) STOP) ∧
    ((fun _ : ℕ => true) STOP = true → (⟨false, none⟩ : LoopState).stopped = false) :=
  ⟨rfl, ((c10_stopped (fun _ => true) (.bytes []) ⟨true, none⟩).2.1 (3, 4)
    ⟨false, none⟩ [STOP] rfl).1,
   ((c10_stopped (fun _ => true) (.bytes []) ⟨true, none⟩).2.1 (3, 4)
    ⟨false, none⟩ [STOP] rfl).2⟩

/-! ## Overlap of the arrow triangles for general `k`, `w` -/

/-- C8 counterexample: at `k = 1/10 ∈ (0,1)` and `w = 19 ∈ (1,20)`, the
canvas point `(120, 95)` lies inside BOTH the FORWARD triangle and the
RIGHT triangle produced by `generate_arrows`, so the six triangles are
not pairwise non-overlapping for every `k ∈ (0,1)`, `w ∈ (1,20)`. -/
theorem c8_counterexample :
    (0 : ℝ) < 1 / 10 ∧ (1 / 10 : ℝ) < 1 ∧ (1 : ℝ) < 19 ∧ (19 : ℝ) < 20 ∧
    (0 : ℝ) ≤ 120 ∧ (120 : ℝ) < 240 ∧ (0 : ℝ) ≤ 95 ∧ (95 : ℝ) < 180 ∧
    arrowForward (1 / 10) 19 ∈ generate_arrows (1 / 10) 19 ∧
    arrowRight (1 / 10) 19 ∈ generate_arrows (1 / 10) 19 ∧
    arrowForward (1 / 10) 19 ≠ arrowRight (1 / 10) 19 ∧
    inTriangle (arrowForward (1 / 10) 19) (120, 95) ∧
    inTriangle (arrowRight (1 / 10) 19) (120, 95) := by
  refine ⟨by norm_num, by norm_num, by norm_num, by norm_num,
    by norm_num, by norm_num, by norm_num, by norm_num,
    by simp [generate_arrows], by simp [generate_arrows], ?_, ?_, ?_⟩
  · intro h
    have hx := congrArg (fun t : Tri => t.1.1) h
    simp only [arrowForward, arrowRight] at hx
    have hpos : (0 : ℝ) < 120 * (1 / 10) / Real.sqrt 2 := by positivity
    linarith
  · refine ⟨5 / 19, 7 / 19, 7 / 19, by norm_num, by norm_num, by norm_num,
      by norm_num, ?_, ?_⟩ <;>
    · simp only [arrowForward]
      norm_num
  · refine ⟨(8.5 - 2.5 * Real.sqrt 2) / 19, 6 / 19, (4.5 + 2.5 * Real.sqrt 2) / 19,
      ?_, by norm_num, ?_, ?_, ?_, ?_⟩
    · have := sqrt2_lt
      have h19 : (0:ℝ) < 19 := by norm_num
      apply div_nonneg _ (le_of_lt h19)
      linarith
    · have := sqrt2_pos
      apply div_nonneg _ (by norm_num : (0:ℝ) ≤ 19)
      linarith
    · field_simp
      ring
    · simp only [arrowRight, div_sqrt2]
      ring
    · simp only [arrowRight, div_sqrt2]
      linear_combination (-(5 : ℝ) / 2) * sqrt2_sq

/-- C8 amended: for the program's actual parameters `K = 0.8` and
`W = 10`, the six triangles produced by `generate_arrows` are pairwise
non-overlapping — no point of the plane (in particular no canvas point)
lies inside two distinct triangles, so no point maps to two directions.
(The original claim quantified over all `k ∈ (0,1)`, `w ∈ (1,20)`, which
fails; see the counterexample.) -/
theorem c8_amended :
    List.Pairwise (fun t1 t2 =>
      Disjoint {p : ℝ × ℝ | inTriangle t1 p} {p : ℝ × ℝ | inTriangle t2 p})
      (generate_arrows 0.8 10) := by
  simp only [generate_arrows]
  refine List.Pairwise.cons ?_ (List.Pairwise.cons ?_ (List.Pairwise.cons ?_
    (List.Pairwise.cons ?_ (List.Pairwise.cons ?_ (List.pairwise_singleton _ _)))))
  · intro t ht
    simp only [List.mem_cons, List.not_mem_nil, or_false] at ht
    rcases ht with rfl | rfl | rfl | rfl | rfl
    · exact disjoint_tri_y _ _ 28 39 (by norm_num) bnd_f_y bnd_r_y_lb
    · exact disjoint_tri_y _ _ 28 126 (by norm_num) bnd_f_y bnd_rr_y_lb
    · exact disjoint_tri_y _ _ 28 152 (by norm_num) bnd_f_y bnd_rev_y_lb
    · exact disjoint_tri_y _ _ 28 126 (by norm_num) bnd_f_y bnd_rl_y_lb
    · exact disjoint_tri_y _ _ 28 39 (by norm_num) bnd_f_y bnd_l_y_lb
  · intro t ht
    simp only [List.mem_cons, List.not_mem_nil, or_false] at ht
    rcases ht with rfl | rfl | rfl | rfl
    · exact disjoint_tri_y _ _ 54 126 (by norm_num) bnd_r_y_ub bnd_rr_y_lb
    · exact disjoint_tri_y _ _ 54 152 (by norm_num) bnd_r_y_ub bnd_rev_y_lb
    · exact (disjoint_tri_x _ _ 67 173 (by norm_num) bnd_rl_x_ub bnd_r_x_lb).symm
    · exact (disjoint_tri_x _ _ 67 173 (by norm_num) bnd_l_x_ub bnd_r_x_lb).symm
  · intro t ht
    simp only [List.mem_cons, List.not_mem_nil, or_false] at ht
    rcases ht with rfl | rfl | rfl
    · exact (disjoint_tri_x _ _ 130 173 (by norm_num) bnd_rev_x_ub bnd_rr_x_lb).symm
    · exact (disjoint_tri_x _ _ 67 173 (by norm_num) bnd_rl_x_ub bnd_rr_x_lb).symm
    · exact (disjoint_tri_y _ _ 54 126 (by norm_num) bnd_l_y_ub bnd_rr_y_lb).symm
  · intro t ht
    simp only [List.mem_cons, List.not_mem_nil, or_false] at ht
    rcases ht with rfl | rfl
    · exact (disjoint_tri_x _ _ 67 110 (by norm_num) bnd_rl_x_ub bnd_rev_x_lb).symm
    · exact (disjoint_tri_x _ _ 67 110 (by norm_num) bnd_l_x_ub bnd_rev_x_lb).symm
  · intro t ht
    simp only [List.mem_singleton] at ht
    subst ht
    exact (disjoint_tri_y _ _ 54 126 (by norm_num) bnd_l_y_ub bnd_rl_y_lb).symm
